import Mathlib

/-!
Verification of the WhatsApp webhook bridge (`app.py`) against its
natural-language specification.

The file shallowly embeds the business logic of the source module:
  * `extract_message_data` (message normalization, via `firstMessage` and
    `processMessage`),
  * `get_openai_response_with_media` (response composition),
  * `download_media_file` (two-step media fetch),
  * `send_whatsapp_message` / `send_whatsapp_media` / `send_whatsapp_location`
    (outbound payload building),
  * `handle_webhook` (the POST handler) and `verify_webhook` (the GET handler).

JSON values are modelled by the inductive `Json`; Python dictionaries are
association lists `List (String × Json)`.  The network is modelled by an
environment `Env` of oracles, and every external call made by the handler is
recorded in a trace of `OutCall` events, so that claims about which calls are
(or are not) made become statements about the trace.

Modelling conventions, matching the Python semantics used by the source:
  * `d.get(k, default)` on a non-dict raises `AttributeError`; inside
    `extract_message_data` every exception is caught and turned into `None`,
    so such accesses are modelled as `Option` failure (`pyGetD`).
  * Python truthiness (`if not entry`, `if caption:` …) is `Json.truthy` /
    emptiness tests on strings and dicts.
  * JSON numbers are modelled as integers (`Json.num : Int`); no claim proved
    here depends on fractional values — the only numeric coercion in the
    handler (`float(...)` in the location re-send branch) is proved unreachable.
-/

/-- A JSON value, as delivered in a webhook body or built for an outbound
request.  Numbers are modelled as integers (see the file header). -/
inductive Json where
  | null
  | bool (b : Bool)
  | num (n : Int)
  | str (s : String)
  | arr (elems : List Json)
  | obj (fields : List (String × Json))
deriving Repr

/-- First binding of a key in an association-list dictionary.  The dictionaries
built by the source never repeat a key, so this is Python `dict` lookup. -/
def Json.lookupKey : List (String × Json) → String → Option Json
  | [], _ => none
  | (k', v) :: rest, k => if k' == k then some v else Json.lookupKey rest k

/-- `d.get(k, default)` on a dictionary already known to be a dict. -/
def dgetD (d : List (String × Json)) (k : String) (dflt : Json) : Json :=
  (Json.lookupKey d k).getD dflt

/-- `d.get(k)` on a dictionary already known to be a dict (default `None`). -/
def dget (d : List (String × Json)) (k : String) : Json :=
  dgetD d k Json.null

/-- `d[k] = v` on a dictionary: replace the binding if present, else append. -/
def dictSet : List (String × Json) → String → Json → List (String × Json)
  | [], k, v => [(k, v)]
  | (k', v') :: rest, k, v =>
    if k' == k then (k, v) :: rest else (k', v') :: dictSet rest k v

/-- Python truthiness of a JSON value (`if not entry`, `if caption:` …). -/
def Json.truthy : Json → Bool
  | .null => false
  | .bool b => b
  | .num n => n != 0
  | .str s => !s.isEmpty
  | .arr xs => !xs.isEmpty
  | .obj kvs => !kvs.isEmpty

/-- Python `==` between a JSON value and a string literal: true exactly when
the value is that string (any non-string compares unequal, never raises). -/
def Json.eqStr : Json → String → Bool
  | .str s, t => s == t
  | _, _ => false

/-- `x.get(k, default)` where `x` is an arbitrary JSON value: raises
(`none`) unless `x` is a dict.  Inside `extract_message_data` the raise is
caught by the surrounding `try` and becomes a `None` result. -/
def pyGetD (x : Json) (k : String) (dflt : Json) : Option Json :=
  match x with
  | .obj kvs => some (dgetD kvs k dflt)
  | _ => none

/-- `x.get(k)` with default `None`. -/
def pyGet (x : Json) (k : String) : Option Json :=
  pyGetD x k Json.null

/-- `x[0]` on a JSON value.  Indexing anything but a non-empty array raises in
Python either immediately or (for strings, which index to one-character
strings) at the attribute access that always follows in the source; both
collapse to `none` under the surrounding `try`. -/
def pyIndex0 : Json → Option Json
  | .arr (x :: _) => some x
  | _ => none

/-- Python `str()` of a JSON value as used by the source's f-strings.  The
formatted positions only ever hold scalars for the inputs of interest;
containers render as fixed tokens (their Python `repr` is not modelled and no
claim depends on it). -/
def pyStr : Json → String
  | .null => "None"
  | .bool true => "True"
  | .bool false => "False"
  | .num n => toString n
  | .str s => s
  | .arr _ => "<list>"
  | .obj _ => "<dict>"

/-- Python `str.strip()`: drop whitespace from both ends.  Implemented by
structural recursion over the character list (`String.trim` itself is
defined through well-founded `Substring` recursion, which the kernel cannot
evaluate). -/
def pyStrip (s : String) : String :=
  String.mk (((s.data.dropWhile Char.isWhitespace).reverse.dropWhile
    Char.isWhitespace).reverse)

/-- Python `len()` of a JSON value: defined on sized containers, raises
(`none`) on scalars. -/
def pyLen : Json → Option Nat
  | .arr xs => some xs.length
  | .str s => some s.length
  | .obj kvs => some kvs.length
  | _ => none

/-- Python iteration `for x in v`: arrays yield elements, strings yield
one-character strings, dicts yield their keys; scalars raise (`none`). -/
def pyIterable : Json → Option (List Json)
  | .arr xs => some xs
  | .str s => some (s.data.map fun c => Json.str (String.mk [c]))
  | .obj kvs => some (kvs.map fun kv => Json.str kv.1)
  | _ => none

/-- Python `float(x)` for the values that can reach the handler's location
branch: numbers convert, numeric strings parse, anything else (such as the
`"N/A"` sentinel) raises (`none`).  Values stay integral because `Json.num`
is integral; the branch is proved unreachable below regardless. -/
def pyFloat : Json → Option Int
  | .num n => some n
  | .str s => s.toInt?
  | .bool b => some (if b then 1 else 0)
  | _ => none

/-! ## Media Fetcher: `base64.b64encode` and `download_media_file` -/

/-- The base64 alphabet. -/
def base64Table : List Char :=
  "ABCDEFGHIJKLMNOPQRSTUVWXYZabcdefghijklmnopqrstuvwxyz0123456789+/".data

/-- The base64 digit for a 6-bit value. -/
def b64Char (n : Nat) : Char :=
  base64Table.getD n 'A'

/-- Standard base64 of a byte list, three bytes to four characters with `=`
padding (Python `base64.b64encode`). -/
def b64encodeBytes : List Nat → List Char
  | [] => []
  | [a] =>
    let a := a % 256
    [b64Char (a / 4), b64Char (a % 4 * 16), '=', '=']
  | [a, b] =>
    let a := a % 256
    let b := b % 256
    [b64Char (a / 4), b64Char (a % 4 * 16 + b / 16), b64Char (b % 16 * 4), '=']
  | a :: b :: c :: rest =>
    let a := a % 256
    let b := b % 256
    let c := c % 256
    b64Char (a / 4) :: b64Char (a % 4 * 16 + b / 16) ::
      b64Char (b % 16 * 4 + c / 64) :: b64Char (c % 64) :: b64encodeBytes rest

/-- `base64.b64encode(bytes).decode('utf-8')`. -/
def b64encode (bytes : List Nat) : String :=
  String.mk (b64encodeBytes bytes)

/-! ## The normalized message record and the trace of external calls -/

/-- The record built by `extract_message_data`: a dict with fixed keys
`from`, `message_id` (key `id`), `type`, `text` and `media_data`.  `text` and
the raw fields stay `Json` because the source copies raw payload values into
them unchanged. -/
structure MessageData where
  from_ : Json
  message_id : Json
  type : Json
  text : Json
  media_data : Option (List (String × Json))
deriving Repr

/-- The structured input handed to the AI completion service: either the
vision-capable multi-part input (system instruction, literal user message,
inline base64 image data URL) or a single text prompt. -/
inductive AIInput where
  | multipart (system : String) (userMessage : Json) (imageDataUrl : String)
  | plain (text : String)
deriving Repr

/-- One external HTTP interaction performed while handling a webhook:
the two media-fetch steps, the AI completion call, and the three outbound
send shapes (text, media re-send, location re-send), each carrying the JSON
payload posted to the provider. -/
inductive OutCall where
  | getMediaUrl (mediaId : Json)
  | getMediaBytes (url : Json)
  | aiCall (input : AIInput)
  | postText (payload : Json)
  | postMedia (payload : Json)
  | postLocation (payload : Json)
deriving Repr

/-- Oracles for the external services: media-metadata endpoint, media byte
download, AI completion, and the provider's message-send endpoint (whose
`Bool` is "the POST succeeded", i.e. no `requests` exception and a 2xx
status).  `Except.error` models a network failure or error status. -/
structure Env where
  mediaUrl : Json → Except String Json
  mediaBytes : Json → Except String (List Nat)
  ai : AIInput → Except String String
  sendPost : Json → Bool

/-- Is this call a location re-send?  (Used to state that the handler never
performs one.) -/
def OutCall.isLocationSend : OutCall → Bool
  | .postLocation _ => true
  | _ => false

/-- Is this call a media re-send? -/
def OutCall.isMediaSend : OutCall → Bool
  | .postMedia _ => true
  | _ => false

/-! ## Message Normalizer: `extract_message_data` -/

/-- The descent `entry[0].changes[0].value.messages[0]` performed at the top
of `extract_message_data`, including the source's explicit emptiness checks
(`if not entry` …).  `none` covers both the explicit `return None` paths and
any exception caught by the surrounding `try`. -/
def firstMessage (webhook_data : Json) : Option Json :=
  match pyGetD webhook_data "entry" (.arr []) with
  | none => none
  | some entry =>
    if !entry.truthy then none else
    match pyIndex0 entry with
    | none => none
    | some entry0 =>
      match pyGetD entry0 "changes" (.arr []) with
      | none => none
      | some changes =>
        if !changes.truthy then none else
        match pyIndex0 changes with
        | none => none
        | some changes0 =>
          match pyGetD changes0 "value" (.obj []) with
          | none => none
          | some value =>
            match pyGetD value "messages" (.arr []) with
            | none => none
            | some messages =>
              if !messages.truthy then none else
              pyIndex0 messages

/-- The `for contact in contacts:` loop of the `contacts` branch: join each
contact's `first_name` and `last_name` with a space, strip the result, and
keep it only when non-empty. -/
def collectContactNames : List Json → List String → Option (List String)
  | [], acc => some acc
  | contact :: rest, acc =>
    match pyGetD contact "name" (.obj []) with
    | none => none
    | some nameObj =>
      match pyGetD nameObj "first_name" (.str "") with
      | none => none
      | some first =>
        match pyGetD nameObj "last_name" (.str "") with
        | none => none
        | some last =>
          let full_name := pyStrip (pyStr first ++ " " ++ pyStr last)
          collectContactNames rest
            (if full_name.isEmpty then acc else acc ++ [full_name])

/-- The per-kind branching of `extract_message_data`, applied to the first
message object.  A non-dict message raises at `message.get("type")`, which the
surrounding `try` converts to `None`. -/
def processMessage (message : Json) : Option MessageData :=
  match message with
  | .obj kvs =>
    let message_type := dget kvs "type"
    let base : MessageData :=
      { from_ := dget kvs "from"
        message_id := dget kvs "id"
        type := message_type
        text := .null
        media_data := none }
    if message_type.eqStr "text" then
      match pyGetD (dgetD kvs "text" (.obj [])) "body" (.str "") with
      | none => none
      | some body => some { base with text := body }
    else if message_type.eqStr "sticker" then
      let sticker_data := dgetD kvs "sticker" (.obj [])
      match pyGet sticker_data "id" with
      | none => none
      | some sid =>
        match pyGet sticker_data "mime_type" with
        | none => none
        | some smime =>
          match pyGetD sticker_data "animated" (.bool false) with
          | none => none
          | some sanim =>
            some { base with
              text := .str "📍 Usuario envió un sticker"
              media_data := some [("type", .str "sticker"), ("id", sid),
                ("mime_type", smime), ("animated", sanim)] }
    else if message_type.eqStr "image" then
      let image_data := dgetD kvs "image" (.obj [])
      match pyGet image_data "id" with
      | none => none
      | some iid =>
        match pyGet image_data "mime_type" with
        | none => none
        | some imime =>
          match pyGetD image_data "caption" (.str "") with
          | none => none
          | some icap =>
            some { base with
              text := .str "📷 Usuario envió una imagen"
              media_data := some [("type", .str "image"), ("id", iid),
                ("mime_type", imime), ("caption", icap)] }
    else if message_type.eqStr "audio" then
      let audio_data := dgetD kvs "audio" (.obj [])
      match pyGet audio_data "id" with
      | none => none
      | some aid =>
        match pyGet audio_data "mime_type" with
        | none => none
        | some amime =>
          some { base with
            text := .str "🎵 Usuario envió un audio"
            media_data := some [("type", .str "audio"), ("id", aid),
              ("mime_type", amime)] }
    else if message_type.eqStr "document" then
      let doc_data := dgetD kvs "document" (.obj [])
      match pyGet doc_data "id" with
      | none => none
      | some did =>
        match pyGetD doc_data "filename" (.str "Archivo sin nombre") with
        | none => none
        | some dfile =>
          match pyGet doc_data "mime_type" with
          | none => none
          | some dmime =>
            match pyGetD doc_data "caption" (.str "") with
            | none => none
            | some dcap =>
              some { base with
                text := .str "📄 Usuario envió un documento"
                media_data := some [("type", .str "document"), ("id", did),
                  ("filename", dfile), ("mime_type", dmime), ("caption", dcap)] }
    else if message_type.eqStr "location" then
      let location := dgetD kvs "location" (.obj [])
      match pyGetD location "latitude" (.str "N/A") with
      | none => none
      | some lat =>
        match pyGetD location "longitude" (.str "N/A") with
        | none => none
        | some lng =>
          match pyGetD location "name" (.str "") with
          | none => none
          | some lname =>
            match pyGetD location "address" (.str "") with
            | none => none
            | some laddr =>
              some { base with
                text := .str "📍 Usuario compartió ubicación"
                media_data := some [("type", .str "location"), ("latitude", lat),
                  ("longitude", lng), ("name", lname), ("address", laddr)] }
    else if message_type.eqStr "contacts" then
      let contacts := dgetD kvs "contacts" (.arr [])
      match pyIterable contacts with
      | none => none
      | some contactList =>
        match collectContactNames contactList [] with
        | none => none
        | some contact_names =>
          match pyLen contacts with
          | none => none
          | some n =>
            some { base with
              text := .str ("👤 Usuario compartió " ++ toString n ++ " contacto(s)")
              media_data := some [("type", .str "contacts"), ("contacts", contacts),
                ("contact_names", .str (if contact_names.isEmpty then "Sin nombres"
                  else String.intercalate ", " contact_names))] }
    else
      some { base with
        text := .str ("❓ Usuario envió un mensaje de tipo: " ++ pyStr message_type) }
  | _ => none

/-- `extract_message_data`: descend to the first message, then normalize it by
kind.  `none` is both "no actionable message" and "exception caught". -/
def extract_message_data (webhook_data : Json) : Option MessageData :=
  (firstMessage webhook_data).bind processMessage

/-! ## Response Composer: `get_openai_response_with_media` -/

/-- The system instruction of the multi-part (vision) input. -/
def systemPrompt : String :=
  "Eres un asistente útil de WhatsApp llamado WaChat Bot. Mantén las respuestas concisas y amigables. Puedes analizar imágenes, documentos, ubicaciones y contactos que te envíen. Siempre responde en español y de manera conversacional."

/-- The text prompt of the non-vision branch before kind-specific
enrichment: fixed system preamble plus the literal display text. -/
def baseEnhanced (message : Json) : String :=
  "Instrucciones del sistema: Eres un asistente útil de WhatsApp llamado WaChat Bot. Mantén las respuestas concisas y amigables. Siempre responde en español.\n\nMensaje del usuario: " ++ pyStr message

/-- The kind-specific enrichment appended to the text prompt when media data
is present (truthy).  The `contacts` case calls `len(...)` on the raw
`contacts` value, which raises (`none`) on a scalar; every other case is
total. -/
def enrichMessage (base : String) (d : List (String × Json)) : Option String :=
  let t := dget d "type"
  if t.eqStr "location" then
    let s := base ++ "\n\nDetalles de ubicación: Latitud " ++ pyStr (dget d "latitude")
      ++ ", Longitud " ++ pyStr (dget d "longitude")
    let s := if (dget d "name").truthy then s ++ ", Lugar: " ++ pyStr (dget d "name") else s
    let s := if (dget d "address").truthy then s ++ ", Dirección: " ++ pyStr (dget d "address") else s
    some s
  else if t.eqStr "contacts" then
    match pyLen (dgetD d "contacts" (.arr [])) with
    | none => none
    | some n =>
      some (base ++ "\n\nEl usuario compartió " ++ toString n ++ " contacto(s): "
        ++ pyStr (dgetD d "contact_names" (.str "N/A")))
  else if t.eqStr "document" then
    let s := base ++ "\n\nDocumento enviado: " ++ pyStr (dgetD d "filename" (.str "Nombre no disponible"))
      ++ ", Tipo: " ++ pyStr (dgetD d "mime_type" (.str "N/A"))
    let s := if (dget d "caption").truthy then s ++ ", Descripción: " ++ pyStr (dget d "caption") else s
    some s
  else if t.eqStr "sticker" then
    some (base ++ "\n\nEl usuario envió un sticker (emoji/imagen expresiva)")
  else if t.eqStr "audio" then
    some (base ++ "\n\nEl usuario envió un mensaje de audio/voz")
  else
    some base

/-- Input preparation of `get_openai_response_with_media`: the multi-part
vision input exactly when media data is truthy with kind `image` and a truthy
`base64` field, else the enriched single text prompt.  `none` is an exception
raised while building the prompt (caught by the function's `try`). -/
def buildAIInput (message : Json) (media_data : Option (List (String × Json))) :
    Option AIInput :=
  match media_data with
  | some d =>
    if !d.isEmpty && (dget d "type").eqStr "image" && (dget d "base64").truthy then
      some (.multipart systemPrompt message
        ("data:image/jpeg;base64," ++ pyStr (dget d "base64")))
    else if !d.isEmpty then
      (enrichMessage (baseEnhanced message) d).map AIInput.plain
    else
      some (.plain (baseEnhanced message))
  | none => some (.plain (baseEnhanced message))

/-- The fixed user-safe apology returned whenever any exception occurs. -/
def apology : String :=
  "Lo siento, tengo problemas para procesar tu solicitud ahora. Por favor intenta de nuevo más tarde."

/-- `get_openai_response_with_media`: build the input, call the completion
service once, trim the textual result; any exception — while building the
input or from the service call — yields the fixed apology.  Also returns the
trace of AI calls performed. -/
def get_openai_response_with_media (ai : AIInput → Except String String)
    (message : Json) (media_data : Option (List (String × Json))) :
    String × List OutCall :=
  match buildAIInput message media_data with
  | none => (apology, [])
  | some input =>
    match ai input with
    | .ok output_text => (pyStrip output_text, [.aiCall input])
    | .error _ => (apology, [.aiCall input])

/-! ## Outbound Dispatcher: the send helpers and `handle_webhook` -/

/-- The JSON envelope posted by `send_whatsapp_message`. -/
def text_payload (to_phone : Json) (message : String) : Json :=
  .obj [("messaging_product", .str "whatsapp"), ("to", to_phone),
    ("type", .str "text"), ("text", .obj [("body", .str message)])]

/-- `send_whatsapp_message`: one POST to the send endpoint; `requests`
errors are caught and become `False`. -/
def send_whatsapp_message (env : Env) (to_phone : Json) (message : String) :
    Bool × List OutCall :=
  let payload := text_payload to_phone message
  (env.sendPost payload, [.postText payload])

/-- The image envelope of `send_whatsapp_media`: the caption field is added
only when the caption is truthy (non-empty). -/
def image_payload (to_phone : Json) (media_id : Json) (caption : String) : Json :=
  .obj [("messaging_product", .str "whatsapp"), ("to", to_phone),
    ("type", .str "image"),
    ("image", .obj (("id", media_id) ::
      (if caption.isEmpty then [] else [("caption", .str caption)])))]

/-- The document envelope of `send_whatsapp_media`; like the image envelope,
the caption is added only when non-empty. -/
def document_payload (to_phone : Json) (media_id : Json) (caption : String) : Json :=
  .obj [("messaging_product", .str "whatsapp"), ("to", to_phone),
    ("type", .str "document"),
    ("document", .obj (("id", media_id) ::
      (if caption.isEmpty then [] else [("caption", .str caption)])))]

/-- Payload selection of `send_whatsapp_media`: `none` is the unsupported
media type branch, which logs and returns `False` without posting. -/
def send_media_payload (to_phone : Json) (media_type : String) (media_id : Json)
    (caption : String) : Option Json :=
  if media_type == "sticker" then
    some (.obj [("messaging_product", .str "whatsapp"), ("to", to_phone),
      ("type", .str "sticker"), ("sticker", .obj [("id", media_id)])])
  else if media_type == "image" then
    some (image_payload to_phone media_id caption)
  else if media_type == "audio" then
    some (.obj [("messaging_product", .str "whatsapp"), ("to", to_phone),
      ("type", .str "audio"), ("audio", .obj [("id", media_id)])])
  else if media_type == "document" then
    some (document_payload to_phone media_id caption)
  else
    none

/-- `send_whatsapp_media`: build the kind-specific envelope and POST it;
unsupported kinds return `False` without any call. -/
def send_whatsapp_media (env : Env) (to_phone : Json) (media_type : String)
    (media_id : Json) (caption : String) : Bool × List OutCall :=
  match send_media_payload to_phone media_type media_id caption with
  | none => (false, [])
  | some payload => (env.sendPost payload, [.postMedia payload])

/-- The location envelope of `send_whatsapp_location`: name and address are
added only when truthy. -/
def location_payload (to_phone : Json) (latitude longitude : Int)
    (name address : Json) : Json :=
  let loc := [("latitude", Json.num latitude), ("longitude", Json.num longitude)]
  let loc := if name.truthy then loc ++ [("name", name)] else loc
  let loc := if address.truthy then loc ++ [("address", address)] else loc
  .obj [("messaging_product", .str "whatsapp"), ("to", to_phone),
    ("type", .str "location"), ("location", .obj loc)]

/-- `send_whatsapp_location`: POST the location envelope. -/
def send_whatsapp_location (env : Env) (to_phone : Json) (latitude longitude : Int)
    (name address : Json) : Bool × List OutCall :=
  let payload := location_payload to_phone latitude longitude name address
  (env.sendPost payload, [.postLocation payload])

/-- `download_media_file`: resolve the media id to a URL via the metadata
endpoint, then GET the URL and base64-encode the bytes.  Any HTTP error,
missing or falsy `url` field, or non-dict metadata response yields `None`. -/
def download_media_file (env : Env) (media_id : Json) :
    Option String × List OutCall :=
  match env.mediaUrl media_id with
  | .error _ => (none, [.getMediaUrl media_id])
  | .ok urlResponse =>
    match pyGet urlResponse "url" with
    | none => (none, [.getMediaUrl media_id])
    | some file_url =>
      if !file_url.truthy then (none, [.getMediaUrl media_id])
      else
        match env.mediaBytes file_url with
        | .error _ => (none, [.getMediaUrl media_id, .getMediaBytes file_url])
        | .ok content =>
          (some (b64encode content), [.getMediaUrl media_id, .getMediaBytes file_url])

/-- The conditional download step of `handle_webhook`: fetch the bytes only
for a truthy media id of kind image, document or sticker, and set the
`base64` key on success. -/
def downloadStep (env : Env) (media_data : Option (List (String × Json))) :
    Option (List (String × Json)) × List OutCall :=
  match media_data with
  | none => (none, [])
  | some d =>
    if !d.isEmpty && (dget d "id").truthy &&
        ((dget d "type").eqStr "image" || (dget d "type").eqStr "document" ||
         (dget d "type").eqStr "sticker") then
      match download_media_file env (dget d "id") with
      | (some file_base64, calls) => (some (dictSet d "base64" (.str file_base64)), calls)
      | (none, calls) => (some d, calls)
    else (some d, [])

/-- The media re-send leg of `handle_webhook`.  `Except.error` is an
exception escaping the leg to the handler's top-level `except` — the only
possible one is `float(...)` on a non-numeric coordinate in the location
branch, raised before any location POST. -/
def mediaLeg (env : Env) (user_phone : Json) (ai_response : String)
    (media_data : Option (List (String × Json))) :
    Except String (Bool × List OutCall) :=
  match media_data with
  | none => .ok (true, [])
  | some d =>
    if !d.isEmpty && (dget d "id").truthy then
      let media_type := dget d "type"
      let media_id := dget d "id"
      if media_type.eqStr "sticker" then
        .ok (send_whatsapp_media env user_phone "sticker" media_id "")
      else if media_type.eqStr "image" then
        let caption :=
          if ai_response.length > 100 then
            "Recibí esta imagen. " ++ ai_response.take 100 ++ "..."
          else ai_response
        .ok (send_whatsapp_media env user_phone "image" media_id caption)
      else if media_type.eqStr "audio" then
        .ok (send_whatsapp_media env user_phone "audio" media_id "")
      else if media_type.eqStr "document" then
        let filename := dgetD d "filename" (.str "documento")
        .ok (send_whatsapp_media env user_phone "document" media_id
          ("Recibí este documento: " ++ pyStr filename))
      else if media_type.eqStr "location" then
        match pyFloat (dgetD d "latitude" (.num 0)) with
        | none => .error "could not convert string to float"
        | some lat =>
          match pyFloat (dgetD d "longitude" (.num 0)) with
          | none => .error "could not convert string to float"
          | some lng =>
            let name := dgetD d "name" (.str "")
            let address := dgetD d "address" (.str "")
            .ok (send_whatsapp_location env user_phone lat lng name address)
      else
        .ok (true, [])
    else .ok (true, [])

/-- An HTTP response of the webhook endpoints. -/
structure HttpResponse where
  status : Nat
  body : Json
deriving Repr

/-- The handler's normal completion body. -/
def okBody : Json := .obj [("status", .str "ok")]

/-- The handler's top-level exception body. -/
def errorBody (message : String) : Json :=
  .obj [("status", .str "error"), ("message", .str message)]

/-- `handle_webhook` (POST `/webhook`): parse the body, normalize, maybe
fetch media bytes, compose the AI reply, send the text leg and then maybe the
media echo leg.  FastAPI returns dict results with HTTP 200; the top-level
`except` also converts JSON-parse failures and any escaping exception to a
200 response with an error body.  The second component is the trace of
external calls, in order. -/
def handle_webhook (env : Env) (body : Except String Json) :
    HttpResponse × List OutCall :=
  match body with
  | .error e => (⟨200, errorBody e⟩, [])
  | .ok webhook_data =>
    match extract_message_data webhook_data with
    | none => (⟨200, okBody⟩, [])
    | some message_data =>
      let user_phone := message_data.from_
      let user_message := message_data.text
      let (media_data, downloadCalls) := downloadStep env message_data.media_data
      let (ai_response, aiCalls) :=
        get_openai_response_with_media env.ai user_message media_data
      let (_text_success, textCalls) :=
        send_whatsapp_message env user_phone ai_response
      match mediaLeg env user_phone ai_response media_data with
      | .ok (_media_success, mediaCalls) =>
        (⟨200, okBody⟩, downloadCalls ++ aiCalls ++ textCalls ++ mediaCalls)
      | .error e =>
        (⟨200, errorBody e⟩, downloadCalls ++ aiCalls ++ textCalls)

/-- `verify_webhook` (GET `/webhook`): echo the challenge as plain text when
the mode is `subscribe` and the verify token matches, else raise an
`HTTPException` with status 403. -/
def verify_webhook (VERIFY_TOKEN hub_mode hub_challenge hub_verify_token : String) :
    HttpResponse :=
  if hub_mode == "subscribe" && hub_verify_token == VERIFY_TOKEN then
    ⟨200, .str hub_challenge⟩
  else
    ⟨403, .obj [("detail", .str "Verificación falló")]⟩

/-! ## Basic lemmas about the JSON model -/

theorem Json.eqStr_iff (j : Json) (s : String) : j.eqStr s = true ↔ j = .str s := by
  cases j <;> simp [Json.eqStr]

theorem lookupKey_dictSet_ne (d : List (String × Json)) (k k' : String) (v : Json)
    (hne : k' ≠ k) : Json.lookupKey (dictSet d k v) k' = Json.lookupKey d k' := by
  induction d with
  | nil =>
    simp [dictSet, Json.lookupKey, Ne.symm hne]
  | cons kv rest ih =>
    obtain ⟨k₀, v₀⟩ := kv
    simp only [dictSet]
    by_cases hk : k₀ = k
    · subst hk
      simp [Json.lookupKey, Ne.symm hne]
    · simp only [beq_iff_eq, hk, if_false, Json.lookupKey]
      by_cases hk' : k₀ = k'
      · simp [hk']
      · simp [hk', ih]

theorem dget_dictSet_ne (d : List (String × Json)) (k k' : String) (v : Json)
    (hne : k' ≠ k) : dget (dictSet d k v) k' = dget d k' := by
  simp [dget, dgetD, lookupKey_dictSet_ne d k k' v hne]

theorem dictSet_ne_nil (d : List (String × Json)) (k : String) (v : Json) :
    dictSet d k v ≠ [] := by
  cases d with
  | nil => simp [dictSet]
  | cons kv rest =>
    obtain ⟨k₀, v₀⟩ := kv
    simp only [dictSet]
    split <;> simp

theorem Json.eqStr_false_iff (j : Json) (s : String) : j.eqStr s = false ↔ j ≠ .str s := by
  rw [← Bool.not_eq_true, not_iff_not, Json.eqStr_iff]

/-- The kinds for which `extract_message_data` attaches media data. -/
def knownMediaKind (t : Json) : Bool :=
  t.eqStr "sticker" || t.eqStr "image" || t.eqStr "audio" || t.eqStr "document" ||
  t.eqStr "location" || t.eqStr "contacts"

/-- Inventory of every normalized message `processMessage` can produce: media
data is absent exactly for text and unknown kinds; otherwise the media dict is
non-empty, its `type` tag is the message kind, and a location dict carries no
`id` key (the source's location branch stores only coordinates, name and
address). -/
theorem processMessage_media_inventory (msg : Json) (r : MessageData)
    (h : processMessage msg = some r) :
    (r.media_data = none ∧ (r.type.eqStr "text" || !knownMediaKind r.type) = true) ∨
    (∃ d, r.media_data = some d ∧ d ≠ [] ∧ dget d "type" = r.type ∧
      knownMediaKind r.type = true ∧ r.type.eqStr "text" = false ∧
      ((dget d "type").eqStr "location" = true → dget d "id" = Json.null)) := by
  cases msg <;> simp only [processMessage] at h <;> try exact Option.noConfusion h
  case obj kvs =>
    repeat' split at h
    all_goals (first | exact Option.noConfusion h | (injection h with h; subst h))
    all_goals simp_all [Json.eqStr_iff, Json.eqStr_false_iff, knownMediaKind, dget,
      dgetD, Json.lookupKey]

/-- The same inventory for `extract_message_data`. -/
theorem extract_media_inventory (w : Json) (r : MessageData)
    (h : extract_message_data w = some r) :
    (r.media_data = none ∧ (r.type.eqStr "text" || !knownMediaKind r.type) = true) ∨
    (∃ d, r.media_data = some d ∧ d ≠ [] ∧ dget d "type" = r.type ∧
      knownMediaKind r.type = true ∧ r.type.eqStr "text" = false ∧
      ((dget d "type").eqStr "location" = true → dget d "id" = Json.null)) := by
  unfold extract_message_data at h
  cases hf : firstMessage w with
  | none => rw [hf] at h; exact Option.noConfusion h
  | some m => rw [hf] at h; exact processMessage_media_inventory m r h

theorem download_media_file_calls (env : Env) (mid : Json) :
    (download_media_file env mid).2 = [.getMediaUrl mid] ∨
    ∃ u, (download_media_file env mid).2 = [.getMediaUrl mid, .getMediaBytes u] := by
  unfold download_media_file
  repeat' split
  all_goals simp

theorem downloadStep_none (env : Env) : downloadStep env none = (none, []) := rfl

theorem downloadStep_fst (env : Env) (d : List (String × Json)) (hne : d ≠ []) :
    ∃ d', (downloadStep env (some d)).1 = some d' ∧ d' ≠ [] ∧
      dget d' "type" = dget d "type" ∧ dget d' "id" = dget d "id" := by
  simp only [downloadStep]
  split
  · split
    next fb calls heq =>
      refine ⟨dictSet d "base64" (.str fb), rfl, dictSet_ne_nil _ _ _, ?_, ?_⟩
      · exact dget_dictSet_ne d "base64" "type" (.str fb) (by decide)
      · exact dget_dictSet_ne d "base64" "id" (.str fb) (by decide)
    next _calls _heq => exact ⟨d, rfl, hne, rfl, rfl⟩
  · exact ⟨d, rfl, hne, rfl, rfl⟩

theorem downloadStep_calls (env : Env) (md : Option (List (String × Json))) :
    (downloadStep env md).2 = [] ∨
    (∃ mid, (downloadStep env md).2 = [.getMediaUrl mid]) ∨
    (∃ mid u, (downloadStep env md).2 = [.getMediaUrl mid, .getMediaBytes u]) := by
  cases md with
  | none => exact Or.inl rfl
  | some d =>
    simp only [downloadStep]
    split
    · split
      next calls fb heq =>
        rcases download_media_file_calls env (dget d "id") with h | ⟨u, h⟩ <;>
          rw [heq] at h
        · exact Or.inr (Or.inl ⟨dget d "id", h⟩)
        · exact Or.inr (Or.inr ⟨dget d "id", u, h⟩)
      next calls heq =>
        rcases download_media_file_calls env (dget d "id") with h | ⟨u, h⟩ <;>
          rw [heq] at h
        · exact Or.inr (Or.inl ⟨dget d "id", h⟩)
        · exact Or.inr (Or.inr ⟨dget d "id", u, h⟩)
    · exact Or.inl rfl

theorem composer_calls (ai : AIInput → Except String String) (m : Json)
    (md : Option (List (String × Json))) :
    (get_openai_response_with_media ai m md).2 = [] ∨
    ∃ i, (get_openai_response_with_media ai m md).2 = [.aiCall i] := by
  unfold get_openai_response_with_media
  repeat' split
  all_goals simp

theorem send_whatsapp_media_calls (env : Env) (to_phone : Json) (mt : String)
    (mid : Json) (cap : String) :
    (send_whatsapp_media env to_phone mt mid cap).2 = [] ∨
    ∃ p, (send_whatsapp_media env to_phone mt mid cap).2 = [.postMedia p] := by
  unfold send_whatsapp_media
  repeat' split
  all_goals simp

theorem mediaLeg_shape (env : Env) (phone : Json) (air : String)
    (d : List (String × Json))
    (hloc : (dget d "type").eqStr "location" = true → (dget d "id").truthy = false) :
    ∃ b calls, mediaLeg env phone air (some d) = .ok (b, calls) ∧
      (calls = [] ∨ ∃ p, calls = [.postMedia p]) := by
  simp only [mediaLeg]
  split
  case isTrue hguard =>
    have hid : (dget d "id").truthy = true := by
      simp only [Bool.and_eq_true] at hguard
      exact hguard.2
    split
    · exact ⟨_, _, rfl, send_whatsapp_media_calls env phone "sticker" (dget d "id") ""⟩
    · split
      · exact ⟨_, _, rfl, send_whatsapp_media_calls env phone "image" (dget d "id") _⟩
      · split
        · exact ⟨_, _, rfl, send_whatsapp_media_calls env phone "audio" (dget d "id") ""⟩
        · split
          · exact ⟨_, _, rfl, send_whatsapp_media_calls env phone "document" (dget d "id") _⟩
          · split
            · next hl => rw [hloc hl] at hid; exact absurd hid (by simp)
            · exact ⟨true, [], rfl, Or.inl rfl⟩
  case isFalse => exact ⟨true, [], rfl, Or.inl rfl⟩

theorem mediaLeg_none (env : Env) (phone : Json) (air : String) :
    mediaLeg env phone air none = .ok (true, []) := rfl

theorem handle_webhook_decomp (env : Env) (w : Json) (r : MessageData)
    (hx : extract_message_data w = some r) :
    ∃ b mcalls,
      mediaLeg env r.from_
        (get_openai_response_with_media env.ai r.text (downloadStep env r.media_data).1).1
        (downloadStep env r.media_data).1 = .ok (b, mcalls) ∧
      (mcalls = [] ∨ ∃ p, mcalls = [.postMedia p]) ∧
      handle_webhook env (.ok w) =
        (⟨200, okBody⟩,
          (downloadStep env r.media_data).2 ++
          (get_openai_response_with_media env.ai r.text (downloadStep env r.media_data).1).2 ++
          [.postText (text_payload r.from_
            (get_openai_response_with_media env.ai r.text (downloadStep env r.media_data).1).1)] ++
          mcalls) := by
  have hml : ∃ b mcalls,
      mediaLeg env r.from_
        (get_openai_response_with_media env.ai r.text (downloadStep env r.media_data).1).1
        (downloadStep env r.media_data).1 = .ok (b, mcalls) ∧
      (mcalls = [] ∨ ∃ p, mcalls = [.postMedia p]) := by
    cases hmd : (downloadStep env r.media_data).1 with
    | none => exact ⟨true, [], rfl, Or.inl rfl⟩
    | some d' =>
      rcases extract_media_inventory w r hx with ⟨hnone, _⟩ | ⟨d, hdm, hne, htag, _, _, hlocd⟩
      · rw [hnone] at hmd
        exact absurd hmd (by simp [downloadStep])
      · rw [hdm] at hmd
        obtain ⟨d'', hd'', _, hty'', hid''⟩ := downloadStep_fst env d hne
        rw [hmd] at hd''
        injection hd'' with hd''
        subst hd''
        have hloc' : (dget d' "type").eqStr "location" = true →
            (dget d' "id").truthy = false := by
          intro hl
          rw [hty''] at hl
          rw [hid'', hlocd hl]
          rfl
        rcases mediaLeg_shape env r.from_
          (get_openai_response_with_media env.ai r.text (some d')).1 d' hloc' with
          ⟨b, mcalls, hm, hs⟩
        exact ⟨b, mcalls, hm, hs⟩
  obtain ⟨b, mcalls, hml, hshape⟩ := hml
  refine ⟨b, mcalls, hml, hshape, ?_⟩
  simp only [handle_webhook, hx, hml, send_whatsapp_message]

theorem handle_ok_response (env : Env) (w : Json) :
    (handle_webhook env (.ok w)).1 = ⟨200, okBody⟩ := by
  cases hx : extract_message_data w with
  | none => simp [handle_webhook, hx]
  | some r =>
    obtain ⟨b, mcalls, _, _, heq⟩ := handle_webhook_decomp env w r hx
    rw [heq]

theorem handle_no_location_send (env : Env) (body : Except String Json) :
    ((handle_webhook env body).2).filter OutCall.isLocationSend = [] := by
  cases body with
  | error e => rfl
  | ok w =>
    cases hx : extract_message_data w with
    | none => simp [handle_webhook, hx]
    | some r =>
      obtain ⟨b, mcalls, _, hshape, heq⟩ := handle_webhook_decomp env w r hx
      rw [heq]
      simp only [List.filter_append]
      have h1 : (downloadStep env r.media_data).2.filter OutCall.isLocationSend = [] := by
        rcases downloadStep_calls env r.media_data with h | ⟨mid, h⟩ | ⟨mid, u, h⟩ <;> rw [h] <;> rfl
      have h2 : ((get_openai_response_with_media env.ai r.text
          (downloadStep env r.media_data).1).2).filter OutCall.isLocationSend = [] := by
        rcases composer_calls env.ai r.text (downloadStep env r.media_data).1 with h | ⟨i, h⟩ <;>
          rw [h] <;> rfl
      have h4 : mcalls.filter OutCall.isLocationSend = [] := by
        rcases hshape with h | ⟨p, h⟩ <;> rw [h] <;> rfl
      rw [h1, h2, h4]
      rfl


/-! ## Concrete events and environments for witnesses and counterexamples -/

/-- A default environment: all external services succeed. -/
def env0 : Env :=
  { mediaUrl := fun _ => .ok (.obj [("url", .str "https://cdn.example/file")])
    mediaBytes := fun _ => .ok [72, 105]
    ai := fun _ => .ok "¡Hola!"
    sendPost := fun _ => true }

/-- A webhook delivery carrying a location message. -/
def locEvent : Json :=
  .obj [("object", .str "whatsapp_business_account"),
    ("entry", .arr [.obj [("changes", .arr [.obj [("value", .obj [
      ("messages", .arr [.obj [
        ("from", .str "5215550002222"), ("id", .str "wamid.loc1"),
        ("type", .str "location"),
        ("location", .obj [("latitude", .num 19), ("longitude", .num (-99)),
          ("name", .str "CDMX"), ("address", .str "Centro")])]])])]])]])]

/-- A webhook delivery carrying an image message. -/
def imgEvent : Json :=
  .obj [("object", .str "whatsapp_business_account"),
    ("entry", .arr [.obj [("changes", .arr [.obj [("value", .obj [
      ("messages", .arr [.obj [
        ("from", .str "5215550001111"), ("id", .str "wamid.img1"),
        ("type", .str "image"),
        ("image", .obj [("id", .str "MEDIA1"), ("mime_type", .str "image/jpeg"),
          ("caption", .str "mira")])]])])]])]])]

/-- A status-update delivery: no `messages` array at all. -/
def statusEvent : Json :=
  .obj [("object", .str "whatsapp_business_account"),
    ("entry", .arr [.obj [("changes", .arr [.obj [("value", .obj [
      ("statuses", .arr [.obj [("status", .str "delivered")]])])]])]])]

/-- A reply of 150 characters (no surrounding whitespace, so trimming is the
identity on it). -/
def a150 : String := String.mk (List.replicate 150 'a')

/-- An environment whose AI service answers with the 150-character reply and
whose media endpoints fail (so the image byte fetch yields no base64). -/
def env150 : Env :=
  { mediaUrl := fun _ => .error "network error"
    mediaBytes := fun _ => .error "network error"
    ai := fun _ => .ok a150
    sendPost := fun _ => true }

/-- A contact entry `{name: {first_name, last_name}}`. -/
def mkContact (p : String × String) : Json :=
  .obj [("name", .obj [("first_name", .str p.1), ("last_name", .str p.2)])]

/-- A webhook delivery carrying a contacts message with the given names. -/
def mkContactsEvent (cs : List (String × String)) : Json :=
  .obj [("object", .str "whatsapp_business_account"),
    ("entry", .arr [.obj [("changes", .arr [.obj [("value", .obj [
      ("messages", .arr [.obj [
        ("from", .str "5215550003333"), ("id", .str "wamid.c1"),
        ("type", .str "contacts"),
        ("contacts", .arr (cs.map mkContact))]])])]])]])]

/-! ## The claims -/

/-- C7: the GET verification endpoint echoes the literal challenge with HTTP
200 exactly when the mode is `subscribe` and the verify token matches the
configured secret, and a wrong token is rejected with a 403 regardless of the
mode. -/
theorem c7_webhook_verification (tok mode challenge token : String) :
    (verify_webhook tok mode challenge token = ⟨200, .str challenge⟩ ↔
      (mode = "subscribe" ∧ token = tok)) ∧
    (token ≠ tok → (verify_webhook tok mode challenge token).status = 403) := by
  constructor
  · constructor
    · intro h
      by_cases hm : mode = "subscribe" <;> by_cases ht : token = tok
      · exact ⟨hm, ht⟩
      all_goals simp [verify_webhook, hm, ht] at h
    · rintro ⟨hm, ht⟩
      simp [verify_webhook, hm, ht]
  · intro hne
    simp [verify_webhook, hne]

/-- Witness for C7 at concrete inputs: a wrong token is rejected with 403. -/
theorem c7_webhook_verification_witness :
    ("wrong" : String) ≠ "secret" ∧
      (verify_webhook "secret" "subscribe" "ch42" "wrong").status = 403 :=
  ⟨by decide, (c7_webhook_verification "secret" "subscribe" "ch42" "wrong").2 (by decide)⟩

/-- C4: when the descent `entry[0].changes[0].value.messages[0]` fails at any
level, normalization returns `None` and the POST handler answers
`{"status": "ok"}` without a single outbound call (no media fetch, no AI
call, no send). -/
theorem c4_missing_message_noop (env : Env) (w : Json)
    (h : firstMessage w = none) :
    extract_message_data w = none ∧
      handle_webhook env (.ok w) = (⟨200, okBody⟩, []) := by
  have hx : extract_message_data w = none := by
    unfold extract_message_data
    rw [h]
    rfl
  exact ⟨hx, by simp [handle_webhook, hx]⟩

/-- Witness for C4: a status-update delivery (no `messages` key) is ignored
with an `ok` response and an empty call trace. -/
theorem c4_missing_message_noop_witness :
    firstMessage statusEvent = none ∧
      (extract_message_data statusEvent = none ∧
        handle_webhook env0 (.ok statusEvent) = (⟨200, okBody⟩, [])) :=
  ⟨rfl, c4_missing_message_noop env0 statusEvent rfl⟩

/-- C8: for any oracles — in particular whatever the outbound send endpoint
answers — a parsed body completes with `{"status": "ok"}` and a body that
fails to parse is answered with `{"status": "error", "message": …}`, both as
HTTP 200. -/
theorem c8_post_response_shape (env : Env) :
    (∀ w, (handle_webhook env (.ok w)).1 = ⟨200, okBody⟩) ∧
    (∀ e, (handle_webhook env (.error e)).1 = ⟨200, errorBody e⟩) :=
  ⟨fun w => handle_ok_response env w, fun _ => rfl⟩

/-- C1 (refuting the claimed behaviour): no run of the POST handler ever
performs a location re-send — the echo guard demands `media_data["id"]`,
which location attachments lack — although a location delivery (here
`locEvent`) does normalize to a location attachment carrying the literal
coordinates, name and address. -/
theorem c1_location_echo_never_sent :
    (∀ (env : Env) (body : Except String Json),
      ((handle_webhook env body).2).filter OutCall.isLocationSend = []) ∧
    extract_message_data locEvent = some
      { from_ := .str "5215550002222", message_id := .str "wamid.loc1",
        type := .str "location", text := .str "📍 Usuario compartió ubicación",
        media_data := some [("type", .str "location"), ("latitude", .num 19),
          ("longitude", .num (-99)), ("name", .str "CDMX"),
          ("address", .str "Centro")] } :=
  ⟨fun env body => handle_no_location_send env body, rfl⟩

/-- C5: the Response Composer builds the multi-part vision input exactly when
an attachment is present (a truthy media dict), its kind is `image`, and the
base64 payload is available (truthy); in particular an image whose byte fetch
failed goes through the text-only branch, whose prompt it still submits to
the AI service, producing a reply. -/
theorem c5_composer_branch_selection :
    (∀ (message : Json) (media : Option (List (String × Json))),
      (∃ u url, buildAIInput message media = some (.multipart systemPrompt u url)) ↔
      (∃ d, media = some d ∧ d ≠ [] ∧ (dget d "type").eqStr "image" = true ∧
        (dget d "base64").truthy = true)) ∧
    (∀ (ai : AIInput → Except String String) (message : Json)
        (d : List (String × Json)),
      (dget d "type").eqStr "image" = true → (dget d "base64").truthy = false →
      ∃ s, buildAIInput message (some d) = some (.plain s) ∧
        (get_openai_response_with_media ai message (some d)).2 = [.aiCall (.plain s)]) := by
  constructor
  · intro m media
    constructor
    · rintro ⟨u, url, hb⟩
      cases media with
      | none => simp [buildAIInput] at hb
      | some d =>
        simp only [buildAIInput] at hb
        split at hb
        case isTrue hc =>
          simp only [Bool.and_eq_true] at hc
          exact ⟨d, rfl, by simpa using hc.1.1, hc.1.2, hc.2⟩
        case isFalse =>
          split at hb
          · rcases henr : enrichMessage (baseEnhanced m) d with _ | s <;>
              rw [henr] at hb <;> simp at hb
          · simp at hb
    · rintro ⟨d, rfl, hne, hty, hb64⟩
      refine ⟨m, "data:image/jpeg;base64," ++ pyStr (dget d "base64"), ?_⟩
      have hne' : d.isEmpty = false := by simpa using hne
      simp [buildAIInput, hne', hty, hb64]
  · intro ai m d hty hb64
    have hne : d.isEmpty = false := by
      cases d with
      | nil => simp [dget, dgetD, Json.lookupKey, Json.eqStr] at hty
      | cons kv rest => rfl
    have h1 : dget d "type" = .str "image" := (Json.eqStr_iff _ _).mp hty
    have henr : enrichMessage (baseEnhanced m) d = some (baseEnhanced m) := by
      simp [enrichMessage, h1, Json.eqStr]
    have hb : buildAIInput m (some d) = some (.plain (baseEnhanced m)) := by
      simp [buildAIInput, hne, hb64, henr]
    refine ⟨baseEnhanced m, hb, ?_⟩
    unfold get_openai_response_with_media
    rw [hb]
    cases hai : ai (.plain (baseEnhanced m)) <;> simp [hai]

/-- The image media dict as normalized for `imgEvent` (no `base64` key: the
fetch failed or was not attempted). -/
def imgNoB64 : List (String × Json) :=
  [("type", .str "image"), ("id", .str "MEDIA1"),
   ("mime_type", .str "image/jpeg"), ("caption", .str "mira")]

/-- Witness for C5: an image attachment without base64 payload goes through
the text-only branch and the prompt is submitted to the AI service. -/
theorem c5_composer_branch_selection_witness :
    ∃ s, buildAIInput (.str "📷 Usuario envió una imagen") (some imgNoB64) =
        some (.plain s) ∧
      (get_openai_response_with_media env150.ai (.str "📷 Usuario envió una imagen")
        (some imgNoB64)).2 = [.aiCall (.plain s)] :=
  c5_composer_branch_selection.2 env150.ai (.str "📷 Usuario envió una imagen")
    imgNoB64 (by decide) (by decide)

/-- C6: the Response Composer never propagates an error: if the completion
call fails (or the prompt build raises), the result is the fixed Spanish
apology; on success it is the trimmed text of the single service call. -/
theorem c6_ai_failure_apology (ai : AIInput → Except String String)
    (message : Json) (media : Option (List (String × Json))) :
    (∀ i e, buildAIInput message media = some i → ai i = .error e →
      (get_openai_response_with_media ai message media).1 = apology) ∧
    (∀ i t, buildAIInput message media = some i → ai i = .ok t →
      (get_openai_response_with_media ai message media).1 = pyStrip t) ∧
    (buildAIInput message media = none →
      (get_openai_response_with_media ai message media).1 = apology) := by
  refine ⟨?_, ?_, ?_⟩
  · intro i e hb hai
    unfold get_openai_response_with_media
    rw [hb]
    simp [hai]
  · intro i t hb hai
    unfold get_openai_response_with_media
    rw [hb]
    simp [hai]
  · intro hb
    unfold get_openai_response_with_media
    rw [hb]

/-- An AI completion service that always fails. -/
def aiFail : AIInput → Except String String := fun _ => .error "boom"

/-- Witness for C6: with a failing completion service the composer answers
the apology string. -/
theorem c6_ai_failure_apology_witness :
    (get_openai_response_with_media aiFail (.str "Hola") none).1 = apology :=
  (c6_ai_failure_apology aiFail (.str "Hola") none).1
    (.plain (baseEnhanced (.str "Hola"))) "boom" rfl rfl

/-- Evaluating the contacts loop on well-formed contact entries: the joined
names are the non-blank stripped `first last` pairs, in order. -/
theorem collectContactNames_mkContact (cs : List (String × String)) (acc : List String) :
    collectContactNames (cs.map mkContact) acc =
      some (acc ++ (cs.map fun p => pyStrip (p.1 ++ " " ++ p.2)).filter
        (fun s => !s.isEmpty)) := by
  induction cs generalizing acc with
  | nil => simp [collectContactNames]
  | cons p rest ih =>
    by_cases hp : (pyStrip (p.1 ++ " " ++ p.2)).isEmpty
    · simp [collectContactNames, mkContact, pyGetD, dgetD, Json.lookupKey, pyStr,
        List.filter_cons, hp, ih]
    · simp [collectContactNames, mkContact, pyGetD, dgetD, Json.lookupKey, pyStr,
        List.filter_cons, hp, ih]

/-- Evaluating `extract_message_data` on a contacts delivery with arbitrary
contact names. -/
theorem extract_mkContactsEvent (cs : List (String × String)) :
    extract_message_data (mkContactsEvent cs) = some
      { from_ := .str "5215550003333", message_id := .str "wamid.c1",
        type := .str "contacts",
        text := .str ("👤 Usuario compartió " ++ toString cs.length ++ " contacto(s)"),
        media_data := some [("type", .str "contacts"),
          ("contacts", .arr (cs.map mkContact)),
          ("contact_names", .str (
            if ((cs.map fun p => pyStrip (p.1 ++ " " ++ p.2)).filter
                  (fun s => !s.isEmpty)).isEmpty
            then "Sin nombres"
            else String.intercalate ", "
              ((cs.map fun p => pyStrip (p.1 ++ " " ++ p.2)).filter
                  (fun s => !s.isEmpty))))] } := by
  have hfm : firstMessage (mkContactsEvent cs) = some (.obj [
      ("from", .str "5215550003333"), ("id", .str "wamid.c1"),
      ("type", .str "contacts"), ("contacts", .arr (cs.map mkContact))]) := rfl
  unfold extract_message_data
  rw [hfm, Option.some_bind]
  simp [processMessage, dget, dgetD, Json.lookupKey, Json.eqStr, pyIterable, pyLen,
    collectContactNames_mkContact cs []]

/-- The normalized record of the two-contact example: one contact named
"Ana Lopez", one with blank names contributing nothing. -/
def anaRecord : MessageData :=
  { from_ := .str "5215550003333", message_id := .str "wamid.c1",
    type := .str "contacts",
    text := .str "👤 Usuario compartió 2 contacto(s)",
    media_data := some [("type", .str "contacts"),
      ("contacts", .arr [mkContact ("Ana", "Lopez"), mkContact ("", "")]),
      ("contact_names", .str "Ana Lopez")] }

/-- C3: contacts normalization joins each contact's stripped `first last`
name, blank entries contribute nothing (the Ana Lopez example), an
all-blank contact list yields the fixed "Sin nombres" sentinel, and the
display text carries the contact count. -/
theorem c3_contact_names (cs : List (String × String)) :
    (extract_message_data (mkContactsEvent [("Ana", "Lopez"), ("", "")]) =
        some anaRecord) ∧
    (∃ r d, extract_message_data (mkContactsEvent cs) = some r ∧
      r.media_data = some d ∧
      r.text = .str ("👤 Usuario compartió " ++ toString cs.length ++ " contacto(s)") ∧
      ((∀ p ∈ cs, pyStrip (p.1 ++ " " ++ p.2) = "") →
        dget d "contact_names" = .str "Sin nombres")) := by
  constructor
  · rfl
  · refine ⟨_, _, extract_mkContactsEvent cs, rfl, rfl, ?_⟩
    intro hall
    have hfilter : ((cs.map fun p => pyStrip (p.1 ++ " " ++ p.2)).filter
        (fun s => !s.isEmpty)) = [] := by
      rw [List.filter_eq_nil_iff]
      intro s hs
      simp only [List.mem_map] at hs
      obtain ⟨p, hp, rfl⟩ := hs
      rw [hall p hp]
      decide
    simp [dget, dgetD, Json.lookupKey, hfilter]

/-- Witness for C3: with every contact name blank, the joined list is the
"Sin nombres" sentinel and the count is reported. -/
theorem c3_contact_names_witness :
    ∃ r d, extract_message_data (mkContactsEvent [("", "")]) = some r ∧
      r.media_data = some d ∧
      r.text = .str ("👤 Usuario compartió " ++ toString (1 : Nat) ++ " contacto(s)") ∧
      dget d "contact_names" = .str "Sin nombres" := by
  obtain ⟨r, d, h1, h2, h3, h4⟩ := (c3_contact_names [("", "")]).2
  exact ⟨r, d, h1, h2, h3, h4 (by decide)⟩

/-- The normalized record of `imgEvent` (fetch not yet attempted). -/
def imgMsgData : MessageData :=
  { from_ := .str "5215550001111", message_id := .str "wamid.img1",
    type := .str "image", text := .str "📷 Usuario envió una imagen",
    media_data := some imgNoB64 }

/-- C9: whenever normalization returns a message, the attachment's `type` tag
equals the message kind, and the attachment is absent exactly when the kind is
`text` or not one of the seven known kinds. -/
theorem c9_attachment_invariant (w : Json) (r : MessageData)
    (h : extract_message_data w = some r) :
    (r.media_data = none ↔ (r.type.eqStr "text" || !knownMediaKind r.type) = true) ∧
    (∀ d, r.media_data = some d → dget d "type" = r.type) := by
  rcases extract_media_inventory w r h with ⟨hm, hk⟩ | ⟨d, hm, _, htag, hkn, htxt, _⟩
  · refine ⟨⟨fun _ => hk, fun _ => hm⟩, ?_⟩
    intro d hd
    rw [hm] at hd
    exact Option.noConfusion hd
  · constructor
    · constructor
      · intro h0
        rw [hm] at h0
        exact Option.noConfusion h0
      · intro hk
        rw [htxt, hkn] at hk
        simp at hk
    · intro d' hd'
      rw [hm] at hd'
      injection hd' with hd'
      subst hd'
      exact htag

/-- Witness for C9 at the image event: the tag matches and the attachment is
present for the known non-text kind. -/
theorem c9_attachment_invariant_witness :
    extract_message_data imgEvent = some imgMsgData ∧
      ((imgMsgData.media_data = none ↔
        (imgMsgData.type.eqStr "text" || !knownMediaKind imgMsgData.type) = true) ∧
       (∀ d, imgMsgData.media_data = some d → dget d "type" = imgMsgData.type)) :=
  ⟨rfl, c9_attachment_invariant imgEvent imgMsgData rfl⟩

/-- The media leg on an image attachment with a truthy id: one media re-send
whose caption is the reply truncated to 100 characters behind a fixed prefix
when the reply exceeds 100 characters, else the reply itself. -/
theorem mediaLeg_image (env : Env) (phone : Json) (air : String)
    (d' : List (String × Json)) (hne : d' ≠ [])
    (hid : (dget d' "id").truthy = true)
    (hty : dget d' "type" = .str "image") :
    mediaLeg env phone air (some d') = .ok
      (env.sendPost (image_payload phone (dget d' "id")
        (if air.length > 100 then "Recibí esta imagen. " ++ air.take 100 ++ "..."
         else air)),
       [.postMedia (image_payload phone (dget d' "id")
        (if air.length > 100 then "Recibí esta imagen. " ++ air.take 100 ++ "..."
         else air))]) := by
  have hne' : d'.isEmpty = false := by simpa using hne
  simp [mediaLeg, hne', hid, hty, Json.eqStr, send_whatsapp_media, send_media_payload]

/-- C2 (amended): on an image message the caption of the image echo equals
the reply text sent on the text leg when it is at most 100 characters, and
otherwise equals the fixed prefix "Recibí esta imagen. " followed by the
first 100 characters of the reply and the ellipsis marker. -/
theorem c2_image_caption_amended (env : Env) (w : Json) (r : MessageData)
    (d : List (String × Json)) (hx : extract_message_data w = some r)
    (hm : r.media_data = some d) (hne : d ≠ [])
    (hid : (dget d "id").truthy = true)
    (hty : (dget d "type").eqStr "image" = true) :
    ∃ (pre : List OutCall) (ai : String),
      (handle_webhook env (.ok w)).2 =
        pre ++ [.postText (text_payload r.from_ ai),
          .postMedia (image_payload r.from_ (dget d "id")
            (if ai.length > 100 then "Recibí esta imagen. " ++ ai.take 100 ++ "..."
             else ai))] := by
  obtain ⟨b, mcalls, hml, _, heq⟩ := handle_webhook_decomp env w r hx
  obtain ⟨d', hd', hne', htyp, hidp⟩ := downloadStep_fst env d hne
  have hty' : dget d' "type" = .str "image" := by
    rw [htyp]
    exact (Json.eqStr_iff _ _).mp hty
  have hid' : (dget d' "id").truthy = true := by rw [hidp]; exact hid
  rw [hm, hd'] at hml heq
  rw [mediaLeg_image env r.from_ _ d' hne' hid' hty'] at hml
  injection hml with hml
  injection hml with _ hmc
  rw [← hmc, hidp] at heq
  refine ⟨(downloadStep env (some d)).2 ++
    (get_openai_response_with_media env.ai r.text (some d')).2,
    (get_openai_response_with_media env.ai r.text (some d')).1, ?_⟩
  rw [heq]
  simp [List.append_assoc]

/-- The caption the handler actually sends for a 150-character reply. -/
def cap150 : String :=
  "Recibí esta imagen. " ++ String.mk (List.replicate 100 'a') ++ "..."

set_option maxRecDepth 100000 in
/-- C2 counterexample: for the image delivery `imgEvent` and a reply of 150
characters, the caption posted on the image echo is the fixed prefix plus the
first 100 characters plus the ellipsis — not, as claimed, the first 100
characters plus the ellipsis alone. -/
theorem c2_image_caption_counterexample :
    ((handle_webhook env150 (.ok imgEvent)).2.filter OutCall.isMediaSend) =
      [.postMedia (.obj [("messaging_product", .str "whatsapp"),
        ("to", .str "5215550001111"), ("type", .str "image"),
        ("image", .obj [("id", .str "MEDIA1"), ("caption", .str cap150)])])] ∧
    cap150 ≠ String.mk (List.replicate 100 'a') ++ "..." := by
  constructor
  · rfl
  · decide

/-- Witness for the amended C2 at the concrete image delivery. -/
theorem c2_image_caption_amended_witness :
    ∃ (pre : List OutCall) (ai : String),
      (handle_webhook env150 (.ok imgEvent)).2 =
        pre ++ [.postText (text_payload imgMsgData.from_ ai),
          .postMedia (image_payload imgMsgData.from_ (dget imgNoB64 "id")
            (if ai.length > 100 then "Recibí esta imagen. " ++ ai.take 100 ++ "..."
             else ai))] :=
  c2_image_caption_amended env150 imgEvent imgMsgData imgNoB64 rfl rfl
    (by simp [imgNoB64]) (by decide) (by decide)

/-- The download step performs the metadata fetch exactly when the media dict
is truthy with a truthy id of kind image, document or sticker, and then the
fetched id is the dict's id. -/
theorem downloadStep_getMediaUrl_iff (env : Env)
    (md : Option (List (String × Json))) (mid : Json) :
    (OutCall.getMediaUrl mid ∈ (downloadStep env md).2) ↔
    (∃ d, md = some d ∧ d ≠ [] ∧ (dget d "id").truthy = true ∧ mid = dget d "id" ∧
      ((dget d "type").eqStr "image" = true ∨ (dget d "type").eqStr "document" = true ∨
       (dget d "type").eqStr "sticker" = true)) := by
  cases md with
  | none => simp [downloadStep]
  | some d =>
    simp only [downloadStep]
    split
    case isTrue hg =>
      simp only [Bool.and_eq_true, Bool.or_eq_true, Bool.not_eq_true'] at hg
      obtain ⟨⟨hne, hid⟩, hkinds⟩ := hg
      rw [or_assoc] at hkinds
      have hcalls : (match download_media_file env (dget d "id") with
          | (some fb, calls) => (some (dictSet d "base64" (.str fb)), calls)
          | (none, calls) => (some d, calls)).2 =
          (download_media_file env (dget d "id")).2 := by
        rcases download_media_file env (dget d "id") with ⟨_ | fb, calls⟩ <;> rfl
      rw [hcalls]
      constructor
      · intro hmem
        have hmid : mid = dget d "id" := by
          rcases download_media_file_calls env (dget d "id") with h | ⟨u, h⟩ <;>
            rw [h] at hmem <;> simp at hmem <;> exact hmem
        exact ⟨d, rfl, by simpa using hne, hid, hmid, hkinds⟩
      · rintro ⟨d₀, hd₀, _, _, hmid, _⟩
        injection hd₀ with hd₀
        subst hd₀
        subst hmid
        rcases download_media_file_calls env (dget d "id") with h | ⟨u, h⟩ <;>
          rw [h] <;> simp
    case isFalse hg =>
      constructor
      · intro hmem
        simp at hmem
      · rintro ⟨d₀, hd₀, hne₀, hid₀, hmid₀, hkinds₀⟩
        injection hd₀ with hd₀
        subst hd₀
        exfalso
        apply hg
        simp only [Bool.and_eq_true, Bool.or_eq_true, Bool.not_eq_true']
        exact ⟨⟨by simpa using hne₀, hid₀⟩, or_assoc.mpr hkinds₀⟩

/-- C10: the POST handler attempts the media fetch exactly for a truthy media
reference of kind image, document or sticker, and a byte fetch only ever
follows a metadata fetch. -/
theorem c10_media_fetch_guard (env : Env) (w : Json) :
    (∀ mid, (OutCall.getMediaUrl mid ∈ (handle_webhook env (.ok w)).2) ↔
      (∃ r d, extract_message_data w = some r ∧ r.media_data = some d ∧ d ≠ [] ∧
        (dget d "id").truthy = true ∧ mid = dget d "id" ∧
        ((dget d "type").eqStr "image" = true ∨
         (dget d "type").eqStr "document" = true ∨
         (dget d "type").eqStr "sticker" = true))) ∧
    (∀ u, OutCall.getMediaBytes u ∈ (handle_webhook env (.ok w)).2 →
      ∃ mid, OutCall.getMediaUrl mid ∈ (handle_webhook env (.ok w)).2) := by
  cases hx : extract_message_data w with
  | none =>
    have htr : handle_webhook env (.ok w) = (⟨200, okBody⟩, []) := by
      simp [handle_webhook, hx]
    rw [htr]
    constructor
    · intro mid
      simp only [List.not_mem_nil, false_iff]
      rintro ⟨r, d, hx', _⟩
      exact Option.noConfusion hx'
    · intro u hu
      simp at hu
  | some r =>
    obtain ⟨b, mcalls, hml, hshape, heq⟩ := handle_webhook_decomp env w r hx
    constructor
    · intro mid
      rw [heq]
      simp only [List.mem_append, List.mem_singleton]
      constructor
      · rintro (((hmem | hmem) | hmem) | hmem)
        · obtain ⟨d, hd, hne, hid, hmid, hkinds⟩ :=
            (downloadStep_getMediaUrl_iff env r.media_data mid).mp hmem
          exact ⟨r, d, rfl, hd, hne, hid, hmid, hkinds⟩
        · rcases composer_calls env.ai r.text (downloadStep env r.media_data).1 with
            h | ⟨i, h⟩ <;> rw [h] at hmem <;> simp at hmem
        · simp at hmem
        · rcases hshape with h | ⟨p, h⟩ <;> rw [h] at hmem <;> simp at hmem
      · rintro ⟨r', d, hx', hd, hne, hid, hmid, hkinds⟩
        injection hx' with hx'
        subst hx'
        refine Or.inl (Or.inl (Or.inl ?_))
        exact (downloadStep_getMediaUrl_iff env r.media_data mid).mpr
          ⟨d, hd, hne, hid, hmid, hkinds⟩
    · intro u hmem
      rw [heq] at hmem
      simp only [List.mem_append, List.mem_singleton] at hmem
      rcases hmem with ((hmem | hmem) | hmem) | hmem
      · rcases downloadStep_calls env r.media_data with h | ⟨mid, h⟩ | ⟨mid, u', h⟩ <;>
          rw [h] at hmem
        · simp at hmem
        · simp at hmem
        · refine ⟨mid, ?_⟩
          rw [heq]
          simp only [List.mem_append]
          refine Or.inl (Or.inl (Or.inl ?_))
          rw [h]
          simp
      · rcases composer_calls env.ai r.text (downloadStep env r.media_data).1 with
          h | ⟨i, h⟩ <;> rw [h] at hmem <;> simp at hmem
      · simp at hmem
      · rcases hshape with h | ⟨p, h⟩ <;> rw [h] at hmem <;> simp at hmem

/-- Witness for C10: for the image delivery the metadata fetch for the
attachment's media id is in the handler's call trace. -/
theorem c10_media_fetch_guard_witness :
    OutCall.getMediaUrl (.str "MEDIA1") ∈ (handle_webhook env0 (.ok imgEvent)).2 :=
  ((c10_media_fetch_guard env0 imgEvent).1 (.str "MEDIA1")).mpr
    ⟨imgMsgData, imgNoB64, rfl, rfl, by simp [imgNoB64], by decide, rfl,
      Or.inl (by decide)⟩
